import Mathlib

/-!
Verification of the health/wellness onboarding + paywall flow.

This file shallowly embeds the checkout/payment core of the repository:
the pure validators and formatters of `src/utils/validation.ts`, the
paywall form/submit logic of `src/components/paywall/Paywall.tsx`, the
simulated 3-D Secure component (`SecureCheckout`), the app-state reducer
and persistence of `src/hooks/useAppState.ts`, the URL language helpers
of `src/utils/urlUtils.ts`, and the email-recovery chain of
`src/pages/SuccessPage.tsx`.  Each embedded definition mirrors the
control flow of the TypeScript source; JavaScript-specific behaviour
(string truthiness, `parseInt`, `NaN` comparisons) is modelled
explicitly where the source relies on it.
-/

namespace HealthApp

/-- Numeric value of a decimal digit character (models JS `parseInt(c)`
on a single digit character). -/
def digitVal (c : Char) : Nat := c.toNat - 48

/-- The digit characters of a string, in order.  Models
`s.replace(/\D/g, "")` from `validation.ts`. -/
def sanitizeDigits (s : String) : List Char := s.toList.filter Char.isDigit

/-- Luhn doubling step: double a digit and subtract 9 when the result
exceeds 9 (`digit *= 2; if (digit > 9) digit -= 9` in `luhnCheck`). -/
def luhnDouble (d : Nat) : Nat := if 2 * d > 9 then 2 * d - 9 else 2 * d

/-- Luhn sum over the digits listed from the LAST digit to the first
(the source iterates `for (i = length-1; i >= 0; i--)`), with the
`isEven` doubling flag threaded exactly as in the source (it starts
`false`, so the last digit is never doubled). -/
def luhnSumRev : List Nat → Bool → Nat
  | [], _ => 0
  | d :: rest, dbl => (if dbl then luhnDouble d else d) + luhnSumRev rest (!dbl)

/-- `luhnCheck` from `validation.ts`, on an already-sanitized digit
list: the threaded sum must be divisible by 10. -/
def luhnCheck (digits : List Char) : Bool :=
  luhnSumRev (digits.reverse.map digitVal) false % 10 == 0

/-- The designated always-valid test card number. -/
def testCardDigits : List Char := "4242424242424242".toList

/-- `validateCardNumber` from `validation.ts`: strip non-digits, reject
lengths outside [13,19], accept the designated test number before the
checksum runs, otherwise run the Luhn check. -/
def validateCardNumber (cardNumber : String) : Bool :=
  let cleanNumber := sanitizeDigits cardNumber
  if cleanNumber.length < 13 || cleanNumber.length > 19 then false
  else if cleanNumber = testCardDigits then true
  else luhnCheck cleanNumber

/-- Model of JS `String.prototype.trim`: drop leading and trailing
whitespace. -/
def trimString (s : String) : String :=
  String.mk (((s.toList.dropWhile Char.isWhitespace).reverse.dropWhile Char.isWhitespace).reverse)

/-- `validateEmail` from `validation.ts`: the trimmed input must match
`/^[^\s@]+@[^\s@]+\.[^\s@]+$/`, i.e. a nonempty run of
non-space-non-at characters, one `@`, and a domain (no spaces, no `@`)
containing a dot with nonempty text on both sides. -/
def validateEmail (email : String) : Bool :=
  let cs := (trimString email).toList
  let localPart := cs.takeWhile (fun c => c ≠ '@')
  let rest := cs.dropWhile (fun c => c ≠ '@')
  match rest with
  | [] => false
  | _ :: domain =>
      decide (localPart ≠ []) &&
      localPart.all (fun c => !c.isWhitespace) &&
      decide (domain ≠ []) &&
      domain.all (fun c => !c.isWhitespace && c ≠ '@') &&
      ((domain.drop 1).dropLast.contains '.')

/-- Numeric value of a list of decimal digit characters (most
significant first). -/
def natOfDigits (ds : List Char) : Nat := ds.foldl (fun acc c => 10 * acc + digitVal c) 0

/-- Model of JS `parseInt(s)` restricted to the shapes the call sites
produce: the longest leading run of decimal digits is parsed; a string
with no leading digit parses to `NaN`, modelled as `none`.  (Leading
whitespace, signs and hex prefixes never occur at the call sites.) -/
def parseIntJS (s : String) : Option Nat :=
  let ds := s.toList.takeWhile Char.isDigit
  if ds.isEmpty then none else some (natOfDigits ds)

/-- JS `<` where the left operand may be `NaN` (`none`): any comparison
with `NaN` is false. -/
def jsLt (a : Option Nat) (b : Nat) : Bool :=
  match a with
  | some x => x < b
  | none => false

/-- JS `>` where the left operand may be `NaN`. -/
def jsGt (a : Option Nat) (b : Nat) : Bool :=
  match a with
  | some x => x > b
  | none => false

/-- JS `===` where the left operand may be `NaN` (`NaN === x` is
false). -/
def jsEq (a : Option Nat) (b : Nat) : Bool :=
  match a with
  | some x => x == b
  | none => false

/-- `validateExpirationDate` from `validation.ts`, parameterised by the
current month (1-12) and the current two-digit year
(`now.getFullYear() % 100`), which the source reads from `new Date()`. -/
def validateExpirationDate (currentMonth currentYear : Nat) (month year : String) : Bool :=
  let monthNum := parseIntJS month
  let yearNum := parseIntJS year
  if jsLt monthNum 1 || jsGt monthNum 12 then false
  else if jsLt yearNum currentYear then false
  else if jsEq yearNum currentYear && jsLt monthNum currentMonth then false
  else true

/-- `formatExpirationDate` from `validation.ts`: incremental MM/YY
formatter tolerating deletion.  `isDeleting` compares the sanitized
lengths of the current and previous inputs. -/
def formatExpirationDate (value previousValue : String) : String :=
  let cleanValue := sanitizeDigits value
  let previousCleanValue := sanitizeDigits previousValue
  let isDeleting := cleanValue.length < previousCleanValue.length
  match cleanValue with
  | [] => ""
  | [c] =>
      if digitVal c > 1 && !isDeleting then String.mk ['0', c, '/']
      else String.mk [c]
  | [c1, c2] =>
      let monthNum := 10 * digitVal c1 + digitVal c2
      if monthNum > 12 then String.mk ['0', c1, '/', c2]
      else
        let month := if monthNum == 0 then "01" else String.mk [c1, c2]
        if !isDeleting then month ++ "/" else month
  | c1 :: c2 :: rest =>
      let monthNum := 10 * digitVal c1 + digitVal c2
      let month :=
        if monthNum > 12 then "12"
        else if monthNum == 0 then "01"
        else String.mk [c1, c2]
      month ++ "/" ++ String.mk (rest.take 2)

/-- Increment a digit character modulo 10 (used to state the Luhn
perturbation property from the spec). -/
def incDigitChar (c : Char) : Char :=
  if c = '0' then '1' else if c = '1' then '2' else if c = '2' then '3'
  else if c = '3' then '4' else if c = '4' then '5' else if c = '5' then '6'
  else if c = '6' then '7' else if c = '7' then '8' else if c = '8' then '9'
  else if c = '9' then '0' else c

/-- Replace the last element of a digit list by its mod-10 increment. -/
def incLastDigit : List Char → List Char
  | [] => []
  | [c] => [incDigitChar c]
  | c :: c2 :: rest => c :: incLastDigit (c2 :: rest)

/-! ### URL language utilities (`src/utils/urlUtils.ts`) -/

/-- The two supported languages (`type Language = "en" | "ar"`). -/
inductive Lang where
  | en
  | ar
deriving DecidableEq

/-- Text direction. -/
inductive Dir where
  | ltr
  | rtl
deriving DecidableEq

/-- The URL code of a language. -/
def langCode : Lang → String
  | .en => "en"
  | .ar => "ar"

/-- Model of `String.startsWith` that the kernel can evaluate. -/
def strStartsWith (s pre : String) : Bool :=
  pre.toList.isPrefixOf s.toList

/-- `getLanguageFromPath` from `urlUtils.ts`: match `/^\/(en|ar)/`
against the pathname, defaulting to English. -/
def getLanguageFromPath (pathname : String) : Lang :=
  if strStartsWith pathname "/en" then .en
  else if strStartsWith pathname "/ar" then .ar
  else .en

/-- `addLanguagePrefix` from `urlUtils.ts` (renamed): ensure a leading
slash, then prepend `/<language>`. -/
def langPrefixedPath (pathname : String) (language : Lang) : String :=
  let cleanPath := if strStartsWith pathname "/" then pathname else "/" ++ pathname
  "/" ++ langCode language ++ cleanPath

/-- The direction the application derives from a language
(`language === "ar" ? "rtl" : "ltr"`). -/
def dirOfLang (language : Lang) : Dir :=
  if language = .ar then .rtl else .ltr

/-! ### Payment draft and paywall form (`Paywall.tsx`) -/

/-- Payment methods (`"card" | "apple-pay" | "paypal"`). -/
inductive PaymentMethod where
  | card
  | applePay
  | paypal
deriving DecidableEq

/-- The payment draft held by the paywall form.  Optional TS fields are
modelled as strings where the empty string stands for an absent value;
every check the source performs on these fields (`!x` truthiness,
`trim() === ""`) treats `undefined` and `""` identically. -/
structure PaymentDraft where
  email : String
  paymentMethod : PaymentMethod
  cardNumber : String
  expirationMonth : String
  expirationYear : String
  cvc : String
  country : String
deriving DecidableEq

/-- The per-field error map of the paywall form.  The source uses a
`Record<string, string>`; the component only ever writes these six
keys, so a fixed record of optional messages is a faithful embedding
(`none` models an absent key). -/
structure FormErrors where
  email : Option String
  cardNumber : Option String
  expiration : Option String
  cvc : Option String
  country : Option String
  general : Option String
deriving DecidableEq

/-- The error map with no entries. -/
def FormErrors.empty : FormErrors :=
  ⟨none, none, none, none, none, none⟩

/-- Whether the error map has no entries
(`Object.keys(newErrors).length === 0`). -/
def FormErrors.isEmpty (e : FormErrors) : Bool :=
  e.email.isNone && e.cardNumber.isNone && e.expiration.isNone &&
  e.cvc.isNone && e.country.isNone && e.general.isNone

/-- `validateForm` from `Paywall.tsx`, parameterised by the current
month and two-digit year used by `validateExpirationDate`.  Error
messages are modelled by their i18n keys. -/
def validateForm (currentMonth currentYear : Nat) (p : PaymentDraft) : FormErrors :=
  let emailErr :=
    if trimString p.email = "" then some "paywall.errors.emailRequired"
    else if !validateEmail p.email then some "paywall.errors.emailInvalid"
    else none
  if p.paymentMethod = .card then
    let cardNumberErr :=
      if trimString p.cardNumber = "" then some "paywall.errors.cardNumberRequired" else none
    let expirationErr :=
      if p.expirationMonth = "" || p.expirationYear = "" ||
          !validateExpirationDate currentMonth currentYear p.expirationMonth p.expirationYear then
        if p.expirationMonth ≠ "" && p.expirationYear ≠ "" then
          some "paywall.errors.expirationPast"
        else some "paywall.errors.expirationRequired"
      else none
    let cvcErr :=
      if trimString p.cvc = "" then some "paywall.errors.cvcRequired" else none
    let countryErr :=
      if p.country = "" then some "paywall.errors.countryRequired" else none
    ⟨emailErr, cardNumberErr, expirationErr, cvcErr, countryErr, none⟩
  else
    ⟨emailErr, none, none, none, none, none⟩

/-- A minimal subscription plan record; `handlePayment` only inspects
whether a plan is selected. -/
structure SubscriptionPlan where
  id : String
  isFree : Bool
deriving DecidableEq

/-- The four ways `handlePayment` in `Paywall.tsx` can resolve a
submission. -/
inductive PaymentOutcome where
  | planRequired
  | validationFailed
  | paymentComplete
  | showSecureCheckout
deriving DecidableEq

/-- `handlePayment` from `Paywall.tsx`: require a selected plan, run
`validateForm`, send PayPal / Apple Pay straight to
`onPaymentComplete`, and show the 3-D Secure stage for card payments. -/
def handlePayment (currentMonth currentYear : Nat)
    (selectedPlan : Option SubscriptionPlan) (p : PaymentDraft) : PaymentOutcome :=
  match selectedPlan with
  | none => .planRequired
  | some _ =>
      if !(validateForm currentMonth currentYear p).isEmpty then .validationFailed
      else
        match p.paymentMethod with
        | .paypal => .paymentComplete
        | .applePay => .paymentComplete
        | .card => .showSecureCheckout

/-- The paywall form state handled by `formReducer`
(`paymentInfo`, `expirationInput`, `errors`). -/
structure FormState where
  paymentInfo : PaymentDraft
  expirationInput : String
  errors : FormErrors
deriving DecidableEq

/-- The `field === "paymentMethod"` branch of `handleInputChange` in
`Paywall.tsx`: merge a payload clearing the four card sub-fields and
setting the new method (`UPDATE_PAYMENT_INFO`), clear the expiration
input (`SET_EXPIRATION_INPUT ""`), and delete the `cardNumber`,
`expiration` and `cvc` error keys (`CLEAR_CARD_ERRORS`). -/
def handlePaymentMethodChange (s : FormState) (method : PaymentMethod) : FormState :=
  { paymentInfo :=
      { s.paymentInfo with
        cardNumber := ""
        expirationMonth := ""
        expirationYear := ""
        cvc := ""
        paymentMethod := method }
    expirationInput := ""
    errors :=
      { s.errors with
        cardNumber := none
        expiration := none
        cvc := none } }

/-! ### Simulated 3-D Secure (`SecureCheckout.tsx`) -/

/-- Result of one authentication submission in `SecureCheckout`:
either the empty-password validation error (the handler returns before
processing starts), or — after the simulated processing delay — success
(`onSuccess`) or decline (`onError`). -/
inductive AuthSubmitOutcome where
  | validationError
  | succeeded
  | declined
deriving DecidableEq

/-- Model of `replace(/\s/g, "")`: drop all whitespace characters. -/
def stripSpaces (s : String) : String :=
  String.mk (s.toList.filter (fun c => !c.isWhitespace))

/-- `handleSubmit` from `SecureCheckout.tsx` as a function of the card
number on file and the submitted password: an empty (trimmed) password
aborts with a validation error; otherwise, after the fixed 3-second
simulated delay, the attempt succeeds iff the space-stripped card
number is `4242424242424242` AND the password is `123456`, and every
other combination is declined. -/
def secureCheckoutSubmit (cardNumber password : String) : AuthSubmitOutcome :=
  if trimString password = "" then .validationError
  else
    let clean := stripSpaces cardNumber
    let isCorrectCard := clean == "4242424242424242"
    let isCorrectPassword := password == "123456"
    if !(isCorrectCard && isCorrectPassword) then .declined
    else .succeeded

/-- How `SecureCheckout` exits back into the paywall: the
`onSuccess` / `onCancel` / `onError(message)` callbacks. -/
inductive CheckoutExit where
  | success
  | cancel
  | error (msg : String)
deriving DecidableEq

/-- The countdown state of `SecureCheckout`: remaining seconds, whether
the interval timer is still registered, and the exit callback fired so
far (if any). -/
structure AuthTimerState where
  timeLeft : Int
  intervalActive : Bool
  exitEvent : Option CheckoutExit
deriving DecidableEq

/-- The state when `startAuthTimer` begins: 300 seconds (5 minutes), a
live interval, no exit taken. -/
def authTimerStart : AuthTimerState :=
  { timeLeft := 300, intervalActive := true, exitEvent := none }

/-- One interval tick of `startAuthTimer`: decrement; when the new time
reaches zero, clear the interval and invoke `onCancel`. -/
def authTick (s : AuthTimerState) : AuthTimerState :=
  if s.intervalActive then
    let newTime := s.timeLeft - 1
    if newTime ≤ 0 then
      { timeLeft := 0, intervalActive := false, exitEvent := some .cancel }
    else { s with timeLeft := newTime }
  else s

/-- The countdown state after `n` one-second ticks with no user
submission. -/
def runAuthTicks (n : Nat) : AuthTimerState := authTick^[n] authTimerStart

/-- A navigation performed by the paywall when `SecureCheckout` exits:
the destination path and the error message passed to the exit handler
(only `onError` receives one). -/
structure ExitNavigation where
  path : String
  carriedMessage : Option String
deriving DecidableEq

/-- The paywall's exit handlers (`handleSecureCheckoutSuccess`,
`handleSecureCheckoutCancel`, `handleSecureCheckoutError`): each hides
the secure-checkout stage and navigates; only the error handler is
invoked with a message. -/
def routeSecureCheckoutExit (language : Lang) : CheckoutExit → ExitNavigation
  | .success => ⟨langPrefixedPath "/payment/success" language, none⟩
  | .cancel => ⟨langPrefixedPath "/payment/cancel" language, none⟩
  | .error msg => ⟨langPrefixedPath "/payment/error" language, some msg⟩

/-! ### App state, reducer and persistence (`useAppState.ts`,
`SuccessPage.tsx`) -/

/-- A partial payment-info payload (`Partial<PaymentInfo>`): `none`
models an absent key. -/
structure PaymentPatch where
  email : Option String := none
  paymentMethod : Option PaymentMethod := none
  cardNumber : Option String := none
  expirationMonth : Option String := none
  expirationYear : Option String := none
  cvc : Option String := none
  country : Option String := none
deriving DecidableEq

/-- JS object spread `{ ...base, ...patch }` for payment info. -/
def applyPaymentPatch (base : PaymentPatch) (patch : PaymentPatch) : PaymentPatch :=
  { email := patch.email.orElse (fun _ => base.email)
    paymentMethod := patch.paymentMethod.orElse (fun _ => base.paymentMethod)
    cardNumber := patch.cardNumber.orElse (fun _ => base.cardNumber)
    expirationMonth := patch.expirationMonth.orElse (fun _ => base.expirationMonth)
    expirationYear := patch.expirationYear.orElse (fun _ => base.expirationYear)
    cvc := patch.cvc.orElse (fun _ => base.cvc)
    country := patch.country.orElse (fun _ => base.country) }

/-- The reducer state of `useAppState` (`AppState & {loading, error}`).
`onboardingData` is kept abstract as an association list; the reducer
only ever spreads it. -/
structure AppState where
  currentStep : Nat
  onboardingData : List (String × String)
  paymentInfo : PaymentPatch
  selectedPlan : Option SubscriptionPlan
  language : Lang
  direction : Dir
  loading : Bool
  error : Option String
deriving DecidableEq

/-- `INITIAL_STATE` from `useAppState.ts` (with the reducer's
`loading` / `error` extension). -/
def INITIAL_STATE : AppState :=
  { currentStep := 1
    onboardingData := []
    paymentInfo := {}
    selectedPlan := none
    language := .en
    direction := .ltr
    loading := false
    error := none }

/-- The reducer actions `useAppState` actually dispatches.
(`INITIALIZE_STATE` is declared in the source but never dispatched;
initial state is built directly in the `useReducer` call.)
`SWITCH_LANGUAGE` carries both a language and a direction, exactly as
in the source action type. -/
inductive AppAction where
  | setLoading (b : Bool)
  | setError (e : Option String)
  | updateOnboardingData (d : List (String × String))
  | updatePaymentInfo (p : PaymentPatch)
  | selectPlan (plan : SubscriptionPlan)
  | switchLanguage (language : Lang) (direction : Dir)
  | setCurrentStep (n : Nat)
  | resetState

/-- `appReducer` from `useAppState.ts`. -/
def appReducer (state : AppState) : AppAction → AppState
  | .setLoading b => { state with loading := b }
  | .setError e => { state with error := e }
  | .updateOnboardingData d => { state with onboardingData := state.onboardingData ++ d }
  | .updatePaymentInfo p => { state with paymentInfo := applyPaymentPatch state.paymentInfo p }
  | .selectPlan plan => { state with selectedPlan := some plan }
  | .switchLanguage language direction => { state with language := language, direction := direction }
  | .setCurrentStep n => { state with currentStep := n }
  | .resetState => { INITIAL_STATE with loading := false, error := none }

/-- `getInitialState` + the `useReducer` initial value from
`useAppState.ts`: start from `INITIAL_STATE`, spread the parsed stored
snapshot (if any; `none` also covers the JSON-parse failure path), then
override `language` and `direction` from the URL.  The URL-derived pair
wins because `getInitialState` spreads `{...parsedState,
...initialState}` with the URL fields last. -/
def initialAppState (urlPathname : String) (storedState : Option AppState) : AppState :=
  let urlLanguage := getLanguageFromPath urlPathname
  let base :=
    match storedState with
    | some parsed => parsed
    | none => INITIAL_STATE
  { base with
    language := urlLanguage
    direction := if urlLanguage = .ar then .rtl else .ltr
    loading := false
    error := none }

/-- The hook-level operations of `useAppState`, with the payloads each
callback actually dispatches: `switchLanguage` computes the direction
from the language before dispatching. -/
inductive AppOp where
  | setLoading (b : Bool)
  | setError (e : Option String)
  | updateOnboardingData (d : List (String × String))
  | updatePaymentInfo (p : PaymentPatch)
  | selectPlan (plan : SubscriptionPlan)
  | switchLanguage (language : Lang)
  | setCurrentStep (n : Nat)
  | resetState

/-- Run one hook-level operation through `appReducer`. -/
def applyAppOp (state : AppState) : AppOp → AppState
  | .setLoading b => appReducer state (.setLoading b)
  | .setError e => appReducer state (.setError e)
  | .updateOnboardingData d => appReducer state (.updateOnboardingData d)
  | .updatePaymentInfo p => appReducer state (.updatePaymentInfo p)
  | .selectPlan plan => appReducer state (.selectPlan plan)
  | .switchLanguage language => appReducer state (.switchLanguage language (dirOfLang language))
  | .setCurrentStep n => appReducer state (.setCurrentStep n)
  | .resetState => appReducer state .resetState

/-- A state is reachable when it arises from the initial render (any
URL, any stored snapshot — including a corrupted one) followed by any
sequence of hook operations. -/
def ReachableAppState (s : AppState) : Prop :=
  ∃ (urlPathname : String) (storedState : Option AppState) (ops : List AppOp),
    s = ops.foldl applyAppOp (initialAppState urlPathname storedState)

/-! ### Browser storage and the success-page email recovery
(`useAppState.ts`, `Paywall.tsx`, `SuccessPage.tsx`) -/

/-- The `localStorage` keys relevant to email recovery: the dedicated
`user_email` entry and the full `app_state` snapshot (stored parsed, as
the JSON round-trip is the identity on well-formed snapshots). -/
structure BrowserStorage where
  userEmailKey : Option String
  appStateKey : Option AppState
deriving DecidableEq

/-- JS truthiness of an optional string: present and non-empty. -/
def truthyStr (o : Option String) : Bool :=
  match o with
  | some s => s ≠ ""
  | none => false

/-- The storage effect of `updatePaymentInfo` in `useAppState.ts`: the
dedicated email key is written only when the payload's email is truthy
(`if (paymentData.email)`); NO write to the `app_state` snapshot is
performed. -/
def updatePaymentInfoStorage (st : BrowserStorage) (payload : PaymentPatch) : BrowserStorage :=
  match payload.email with
  | some e => if e ≠ "" then { st with userEmailKey := some e } else st
  | none => st

/-- The storage effect of the generic-field branch of
`handleInputChange` in `Paywall.tsx` for `field === "email"`: it first
calls `updatePaymentInfo({email: value})` (guarded write), then writes
`localStorage.setItem("user_email", formattedValue)` UNCONDITIONALLY. -/
def handleEmailChangeStorage (st : BrowserStorage) (value : String) : BrowserStorage :=
  let st1 := updatePaymentInfoStorage st { email := some value }
  { st1 with userEmailKey := some value }

/-- The email-recovery chain of `SuccessPage.tsx`:
`appState.paymentInfo.email`, then `localStorage.getItem("user_email")
|| undefined`, then the `paymentInfo?.email` field of the parsed
`app_state` snapshot.  Empty strings are falsy and fall through. -/
def recoverEmail (inMemoryEmail : Option String) (st : BrowserStorage) : Option String :=
  if truthyStr inMemoryEmail then inMemoryEmail
  else if truthyStr st.userEmailKey then st.userEmailKey
  else
    match st.appStateKey with
    | some snapshot => snapshot.paymentInfo.email
    | none => none

end HealthApp

namespace HealthApp

example : formatExpirationDate "3" "" = "03/" := by decide
example : formatExpirationDate "12" "" = "12/" := by decide
example : formatExpirationDate "13" "" = "01/3" := by decide
example : formatExpirationDate "1234" "123" = "12/34" := by decide
example : formatExpirationDate "1" "12/" = "1" := by decide
example : validateCardNumber "4242 4242 4242 4242" = true := by decide
example : validateCardNumber "4000000000000002" = true := by decide
example : validateCardNumber "4000000000000001" = false := by decide
example : validateCardNumber "123" = false := by decide
example : validateEmail "user@example.com" = true := by decide
example : validateEmail "user@examplecom" = false := by decide
example : validateEmail " a@b.c " = true := by decide
example : validateEmail "a b@c.d" = false := by decide
example : validateExpirationDate 10 26 "12" "26" = true := by decide
example : validateExpirationDate 10 26 "09" "26" = false := by decide
example : validateExpirationDate 10 26 "10" "26" = true := by decide
example : validateExpirationDate 10 26 "13" "99" = false := by decide

/-! ### Helper lemmas about digit characters and the Luhn sum -/

lemma char_toNat_injective : Function.Injective Char.toNat :=
  StrictMono.injective fun _ _ a => a

lemma isDigit_bounds (c : Char) (h : c.isDigit = true) : 48 ≤ c.toNat ∧ c.toNat ≤ 57 := by
  simp [Char.isDigit] at h
  exact ⟨h.1, h.2⟩

lemma isDigit_enum (c : Char) (h : c.isDigit = true) :
    c = '0' ∨ c = '1' ∨ c = '2' ∨ c = '3' ∨ c = '4' ∨
    c = '5' ∨ c = '6' ∨ c = '7' ∨ c = '8' ∨ c = '9' := by
  obtain ⟨h1, h2⟩ := isDigit_bounds c h
  have hv : c.toNat = 48 ∨ c.toNat = 49 ∨ c.toNat = 50 ∨ c.toNat = 51 ∨ c.toNat = 52 ∨
      c.toNat = 53 ∨ c.toNat = 54 ∨ c.toNat = 55 ∨ c.toNat = 56 ∨ c.toNat = 57 := by omega
  rcases hv with h | h | h | h | h | h | h | h | h | h
  · exact Or.inl (char_toNat_injective (show c.toNat = Char.toNat '0' from h))
  · exact Or.inr (Or.inl (char_toNat_injective (show c.toNat = Char.toNat '1' from h)))
  · exact Or.inr (Or.inr (Or.inl (char_toNat_injective (show c.toNat = Char.toNat '2' from h))))
  · exact Or.inr (Or.inr (Or.inr (Or.inl
      (char_toNat_injective (show c.toNat = Char.toNat '3' from h)))))
  · exact Or.inr (Or.inr (Or.inr (Or.inr (Or.inl
      (char_toNat_injective (show c.toNat = Char.toNat '4' from h))))))
  · exact Or.inr (Or.inr (Or.inr (Or.inr (Or.inr (Or.inl
      (char_toNat_injective (show c.toNat = Char.toNat '5' from h)))))))
  · exact Or.inr (Or.inr (Or.inr (Or.inr (Or.inr (Or.inr (Or.inl
      (char_toNat_injective (show c.toNat = Char.toNat '6' from h))))))))
  · exact Or.inr (Or.inr (Or.inr (Or.inr (Or.inr (Or.inr (Or.inr (Or.inl
      (char_toNat_injective (show c.toNat = Char.toNat '7' from h)))))))))
  · exact Or.inr (Or.inr (Or.inr (Or.inr (Or.inr (Or.inr (Or.inr (Or.inr (Or.inl
      (char_toNat_injective (show c.toNat = Char.toNat '8' from h))))))))))
  · exact Or.inr (Or.inr (Or.inr (Or.inr (Or.inr (Or.inr (Or.inr (Or.inr (Or.inr
      (char_toNat_injective (show c.toNat = Char.toNat '9' from h))))))))))

lemma incDigitChar_isDigit (c : Char) (h : c.isDigit = true) :
    (incDigitChar c).isDigit = true := by
  rcases isDigit_enum c h with h | h | h | h | h | h | h | h | h | h <;> subst h <;> decide

lemma digitVal_incDigitChar (c : Char) (h : c.isDigit = true) :
    digitVal (incDigitChar c) = (digitVal c + 1) % 10 := by
  rcases isDigit_enum c h with h | h | h | h | h | h | h | h | h | h <;> subst h <;> decide

lemma incLastDigit_concat (init : List Char) (c : Char) :
    incLastDigit (init ++ [c]) = init ++ [incDigitChar c] := by
  induction init with
  | nil => rfl
  | cons a t ih =>
      cases t with
      | nil => rfl
      | cons b t2 => simpa [incLastDigit] using ih

lemma sanitize_mem_isDigit {s : String} {c : Char} (h : c ∈ sanitizeDigits s) :
    c.isDigit = true :=
  (List.mem_filter.mp h).2

lemma sanitize_mk_of_all (l : List Char) (h : ∀ c ∈ l, c.isDigit = true) :
    sanitizeDigits (String.mk l) = l := by
  unfold sanitizeDigits
  exact List.filter_eq_self.mpr h

lemma luhnSumRev_cons_false (d : Nat) (r : List Nat) :
    luhnSumRev (d :: r) false = d + luhnSumRev r true := rfl

lemma luhnCheck_incLast (init : List Char) (c : Char) (hc : c.isDigit = true)
    (h : luhnCheck (init ++ [c]) = true) :
    luhnCheck (incLastDigit (init ++ [c])) = false := by
  rw [incLastDigit_concat]
  unfold luhnCheck at h ⊢
  simp only [List.reverse_append, List.reverse_cons, List.reverse_nil, List.nil_append,
    List.singleton_append, List.map_cons, luhnSumRev_cons_false] at h ⊢
  rw [digitVal_incDigitChar c hc]
  have hd : digitVal c ≤ 9 := by
    obtain ⟨h1, h2⟩ := isDigit_bounds c hc
    unfold digitVal
    omega
  have h' : (digitVal c + luhnSumRev (List.map digitVal init.reverse) true) % 10 = 0 := by
    simpa using h
  have hne :
      ((digitVal c + 1) % 10 + luhnSumRev (List.map digitVal init.reverse) true) % 10 ≠ 0 := by
    omega
  simpa using hne

/-! ### C5: card-number validator -/

/-- C5: `validateCardNumber` returns false for every input whose digit
string has length outside [13,19]; it returns true for the designated
test number `4242424242424242` before the checksum runs; for every
other 13-19 digit string it agrees with the Luhn checksum; and
incrementing the last digit (mod 10) of any Luhn-valid 13-19 digit
string makes it return false. -/
theorem card_number_validation_spec :
    (∀ s : String, ((sanitizeDigits s).length < 13 ∨ 19 < (sanitizeDigits s).length) →
      validateCardNumber s = false) ∧
    (∀ s : String, sanitizeDigits s = testCardDigits → validateCardNumber s = true) ∧
    (∀ s : String, sanitizeDigits s ≠ testCardDigits →
      13 ≤ (sanitizeDigits s).length → (sanitizeDigits s).length ≤ 19 →
      validateCardNumber s = luhnCheck (sanitizeDigits s)) ∧
    (∀ s : String, 13 ≤ (sanitizeDigits s).length → (sanitizeDigits s).length ≤ 19 →
      luhnCheck (sanitizeDigits s) = true →
      validateCardNumber (String.mk (incLastDigit (sanitizeDigits s))) = false) := by
  refine ⟨?_, ?_, ?_, ?_⟩
  · intro s h
    unfold validateCardNumber
    have hc : ((sanitizeDigits s).length < 13 || (sanitizeDigits s).length > 19) = true := by
      rcases h with h | h <;> simp [h]
    simp [hc]
  · intro s h
    unfold validateCardNumber
    rw [h]
    decide
  · intro s hne h13 h19
    unfold validateCardNumber
    have hc : ((sanitizeDigits s).length < 13 || (sanitizeDigits s).length > 19) = false := by
      simp
      omega
    simp [hc, hne]
  · intro s h13 h19 hluhn
    obtain ⟨init, c, hic⟩ : ∃ init c, sanitizeDigits s = init ++ [c] := by
      rcases List.eq_nil_or_concat (sanitizeDigits s) with h | ⟨init, c, h⟩
      · rw [h] at h13
        simp at h13
      · exact ⟨init, c, by simpa [List.concat_eq_append] using h⟩
    have hall : ∀ x ∈ sanitizeDigits s, x.isDigit = true := fun x hx => sanitize_mem_isDigit hx
    have hc : c.isDigit = true := hall c (by rw [hic]; simp)
    have hall' : ∀ x ∈ incLastDigit (sanitizeDigits s), x.isDigit = true := by
      rw [hic, incLastDigit_concat]
      intro x hx
      rcases List.mem_append.mp hx with hx | hx
      · exact hall x (by rw [hic]; exact List.mem_append.mpr (Or.inl hx))
      · rw [List.mem_singleton.mp hx]
        exact incDigitChar_isDigit c hc
    have hsan : sanitizeDigits (String.mk (incLastDigit (sanitizeDigits s))) =
        incLastDigit (sanitizeDigits s) := sanitize_mk_of_all _ hall'
    have hlen : (incLastDigit (sanitizeDigits s)).length = (sanitizeDigits s).length := by
      rw [hic, incLastDigit_concat]
      simp
    have hfail : luhnCheck (incLastDigit (sanitizeDigits s)) = false := by
      rw [hic] at hluhn ⊢
      exact luhnCheck_incLast init c hc hluhn
    have hnotest : incLastDigit (sanitizeDigits s) ≠ testCardDigits := by
      intro he
      rw [he] at hfail
      have ht : luhnCheck testCardDigits = true := by decide
      rw [ht] at hfail
      exact absurd hfail (by decide)
    unfold validateCardNumber
    rw [hsan]
    have hcond : ((incLastDigit (sanitizeDigits s)).length < 13 ||
        (incLastDigit (sanitizeDigits s)).length > 19) = false := by
      rw [hlen]
      simp
      omega
    simp [hcond, hnotest, hfail]

/-- Witness for C5: the Luhn-valid test-decline card `4000000000000002`
with its last digit incremented is rejected. -/
theorem card_number_validation_spec_witness :
    validateCardNumber (String.mk (incLastDigit (sanitizeDigits "4000000000000002"))) = false :=
  card_number_validation_spec.2.2.2 "4000000000000002" (by decide) (by decide) (by decide)

/-! ### C6: incremental expiration formatter -/

/-- C6: the expiration formatter's ordered rules — empty sanitized
input maps to `""`; a single digit above 1 when not deleting maps to
`0<digit>/`; two digits above 12 map to `0<first>/<second>`; two digits
with value 0 coerce the month to `01` (with the slash appended when not
deleting); two digits in range get `/` appended when not deleting;
three or more digits clamp the month into [01,12] and append the raw
2-digit year tail — together with the five concrete examples from the
spec.  "Deleting" means the sanitized length of the current input is
below that of the previous input. -/
theorem expiration_formatter_spec :
    (∀ value previousValue : String, sanitizeDigits value = [] →
      formatExpirationDate value previousValue = "") ∧
    (∀ (value previousValue : String) (c : Char), sanitizeDigits value = [c] →
      1 < digitVal c → (sanitizeDigits previousValue).length ≤ 1 →
      formatExpirationDate value previousValue = String.mk ['0', c, '/']) ∧
    (∀ (value previousValue : String) (c1 c2 : Char), sanitizeDigits value = [c1, c2] →
      12 < 10 * digitVal c1 + digitVal c2 →
      formatExpirationDate value previousValue = String.mk ['0', c1, '/', c2]) ∧
    (∀ value previousValue : String, sanitizeDigits value = ['0', '0'] →
      formatExpirationDate value previousValue =
        if (sanitizeDigits previousValue).length ≤ 2 then "01/" else "01") ∧
    (∀ (value previousValue : String) (c1 c2 : Char), sanitizeDigits value = [c1, c2] →
      1 ≤ 10 * digitVal c1 + digitVal c2 → 10 * digitVal c1 + digitVal c2 ≤ 12 →
      (sanitizeDigits previousValue).length ≤ 2 →
      formatExpirationDate value previousValue = String.mk [c1, c2, '/']) ∧
    (∀ (value previousValue : String) (c1 c2 : Char) (rest : List Char),
      sanitizeDigits value = c1 :: c2 :: rest → rest ≠ [] →
      formatExpirationDate value previousValue =
        (if 12 < 10 * digitVal c1 + digitVal c2 then "12"
         else if 10 * digitVal c1 + digitVal c2 = 0 then "01"
         else String.mk [c1, c2]) ++ "/" ++ String.mk (rest.take 2)) ∧
    (formatExpirationDate "3" "" = "03/" ∧ formatExpirationDate "12" "" = "12/" ∧
      formatExpirationDate "13" "" = "01/3" ∧ formatExpirationDate "1234" "123" = "12/34" ∧
      formatExpirationDate "1" "12/" = "1") := by
  refine ⟨?_, ?_, ?_, ?_, ?_, ?_, by decide, by decide, by decide, by decide, by decide⟩
  · intro value previousValue h
    simp only [formatExpirationDate, h]
  · intro value previousValue c h hgt hprev
    have hdel : decide ((1 : Nat) < (sanitizeDigits previousValue).length) = false := by
      simp
      omega
    have hgt' : decide (digitVal c > 1) = true := by simpa using hgt
    simp only [formatExpirationDate, h, List.length_cons, List.length_nil, hdel, hgt']
    rfl
  · intro value previousValue c1 c2 h hgt
    simp only [formatExpirationDate, h]
    rw [if_pos (show 10 * digitVal c1 + digitVal c2 > 12 from hgt)]
  · intro value previousValue h
    by_cases hp : (sanitizeDigits previousValue).length ≤ 2
    · have hdel : decide ((2 : Nat) < (sanitizeDigits previousValue).length) = false := by
        simp
        omega
      simp only [formatExpirationDate, h, List.length_cons, List.length_nil, hdel, if_pos hp]
      rfl
    · have hdel : decide ((2 : Nat) < (sanitizeDigits previousValue).length) = true := by
        simp
        omega
      simp only [formatExpirationDate, h, List.length_cons, List.length_nil, hdel, if_neg hp]
      rfl
  · intro value previousValue c1 c2 h h1 h12 hprev
    have hdel : decide ([c1, c2].length < (sanitizeDigits previousValue).length) = false := by
      simp
      omega
    have hngt : ¬ (10 * digitVal c1 + digitVal c2 > 12) := by omega
    have hz : (10 * digitVal c1 + digitVal c2 == 0) = false := by
      simp
      omega
    simp only [formatExpirationDate, h, hdel, hz]
    rw [if_neg hngt]
    simp only [Bool.not_false, if_true, Bool.false_eq_true, if_false]
    rfl
  · intro value previousValue c1 c2 rest h hrest
    match rest, hrest with
    | c3 :: rest2, _ =>
      simp only [formatExpirationDate, h]
      by_cases hgt : 10 * digitVal c1 + digitVal c2 > 12
      · rw [if_pos hgt, if_pos hgt]
      · rw [if_neg hgt, if_neg hgt]
        by_cases hz : 10 * digitVal c1 + digitVal c2 = 0
        · have hz' : (10 * digitVal c1 + digitVal c2 == 0) = true := by simpa using hz
          rw [hz', if_pos hz]
          simp
        · have hz' : (10 * digitVal c1 + digitVal c2 == 0) = false := by simpa using hz
          rw [hz', if_neg hz]
          simp

/-- Witness for C6: rule 2 applied to input "3" with empty previous
input gives "03/". -/
theorem expiration_formatter_spec_witness :
    formatExpirationDate "3" "" = String.mk ['0', '3', '/'] :=
  expiration_formatter_spec.2.1 "3" "" '3' (by decide) (by decide) (by decide)

/-! ### C7: expiration-future check -/

/-- C7: on parseable month/year strings, `validateExpirationDate` is
false when the parsed month is outside [1,12], false when the parsed
year is below the current two-digit year, false when the year equals
the current year and the month is below the current month, true on the
same-month/same-year boundary, and true strictly after the current
month/year. -/
theorem expiration_future_spec (currentMonth currentYear : Nat)
    (month year : String) (m y : Nat)
    (hcm1 : 1 ≤ currentMonth) (hcm2 : currentMonth ≤ 12)
    (hm : parseIntJS month = some m) (hy : parseIntJS year = some y) :
    ((m < 1 ∨ 12 < m) → validateExpirationDate currentMonth currentYear month year = false) ∧
    (y < currentYear → validateExpirationDate currentMonth currentYear month year = false) ∧
    (y = currentYear → m < currentMonth →
      validateExpirationDate currentMonth currentYear month year = false) ∧
    (m = currentMonth → y = currentYear →
      validateExpirationDate currentMonth currentYear month year = true) ∧
    (1 ≤ m → m ≤ 12 → (currentYear < y ∨ (y = currentYear ∧ currentMonth < m)) →
      validateExpirationDate currentMonth currentYear month year = true) := by
  unfold validateExpirationDate
  rw [hm, hy]
  simp only [jsLt, jsGt, jsEq]
  refine ⟨?_, ?_, ?_, ?_, ?_⟩
  · intro h
    have hc : (decide (m < 1) || decide (m > 12)) = true := by
      rcases h with h | h <;> simp [h]
    simp [hc];
        omega
  · intro h
    by_cases h1 : (decide (m < 1) || decide (m > 12)) = true
    · simp [h1];
        omega
    · simp only [Bool.or_eq_true, decide_eq_true_eq, not_or] at h1
      have hc : (decide (m < 1) || decide (m > 12)) = false := by
        simp
        omega
      simp [hc, h]
  · intro hyy hmm
    by_cases h1 : (decide (m < 1) || decide (m > 12)) = true
    · simp [h1];
        omega
    · simp only [Bool.or_eq_true, decide_eq_true_eq, not_or] at h1
      have hc : (decide (m < 1) || decide (m > 12)) = false := by
        simp
        omega
      have hy1 : decide (y < currentYear) = false := by
        simp
        omega
      have hy2 : (y == currentYear) = true := by simpa using hyy
      simp [hc, hy1, hy2, hmm]
  · intro hmm hyy
    have hc : (decide (m < 1) || decide (m > 12)) = false := by
      simp
      omega
    have hy1 : decide (y < currentYear) = false := by
      simp
      omega
    have hm1 : decide (m < currentMonth) = false := by
      simp
      omega
    simp [hc, hy1, hm1];
        omega
  · intro hm1 hm12 hafter
    have hc : (decide (m < 1) || decide (m > 12)) = false := by
      simp
      omega
    have hy1 : decide (y < currentYear) = false := by
      simp
      omega
    rcases hafter with hgt | ⟨hyy, hmm⟩
    · have hy2 : (y == currentYear) = false := by
        simp
        omega
      simp [hc, hy1, hy2];
        omega
    · have hm2 : decide (m < currentMonth) = false := by
        simp
        omega
      simp [hc, hy1, hm2];
        omega

/-- Witness for C7: with the clock at month 10 of year 26, expiration
09/26 is rejected and 10/26 (the boundary) is accepted. -/
theorem expiration_future_spec_witness :
    validateExpirationDate 10 26 "09" "26" = false ∧
    validateExpirationDate 10 26 "10" "26" = true :=
  ⟨(expiration_future_spec 10 26 "09" "26" 9 26 (by decide) (by decide) (by decide)
      (by decide)).2.2.1 rfl (by decide),
    (expiration_future_spec 10 26 "10" "26" 10 26 (by decide) (by decide) (by decide)
      (by decide)).2.2.2.1 rfl rfl⟩

/-! ### C1: 3-D Secure authentication decision -/

/-- C1: for a submission that reaches the simulated processing stage
(non-blank password), the attempt succeeds exactly when the
space-stripped card number is `4242424242424242` AND the password is
`123456`; every other card/password combination is declined
(`onError`). -/
theorem secure_checkout_auth_decision (cardNumber password : String)
    (hpw : trimString password ≠ "") :
    (secureCheckoutSubmit cardNumber password = .succeeded ↔
      stripSpaces cardNumber = "4242424242424242" ∧ password = "123456") ∧
    (¬(stripSpaces cardNumber = "4242424242424242" ∧ password = "123456") →
      secureCheckoutSubmit cardNumber password = .declined) := by
  unfold secureCheckoutSubmit
  rw [if_neg hpw]
  by_cases hc : stripSpaces cardNumber = "4242424242424242" ∧ password = "123456"
  · have hb : (stripSpaces cardNumber == "4242424242424242" && password == "123456") = true := by
      simp [hc.1, hc.2]
    simp only [hb, Bool.not_true, Bool.false_eq_true, if_false]
    exact ⟨by simp [hc], fun h => absurd hc h⟩
  · have hb : (stripSpaces cardNumber == "4242424242424242" && password == "123456") = false := by
      rcases not_and_or.mp hc with h | h <;> simp [h]
    simp only [hb, Bool.not_false, if_true]
    constructor
    · constructor
      · intro h
        exact absurd h (by simp)
      · intro h
        exact absurd h hc
    · intro _
      trivial

/-- Witness for C1: the designated card and password succeed. -/
theorem secure_checkout_auth_decision_witness :
    secureCheckoutSubmit "4242 4242 4242 4242" "123456" = .succeeded :=
  (secure_checkout_auth_decision "4242 4242 4242 4242" "123456" (by decide)).1.mpr
    ⟨by decide, rfl⟩

/-! ### C2: non-card methods bypass authentication -/

/-- C2: a submission with PayPal or Apple Pay whose draft passes
`validateForm` resolves directly to `onPaymentComplete`, and the
secure-checkout stage is shown only for the card method. -/
theorem noncard_bypasses_authentication :
    (∀ (currentMonth currentYear : Nat) (plan : SubscriptionPlan) (p : PaymentDraft),
      (p.paymentMethod = .paypal ∨ p.paymentMethod = .applePay) →
      (validateForm currentMonth currentYear p).isEmpty = true →
      handlePayment currentMonth currentYear (some plan) p = .paymentComplete) ∧
    (∀ (currentMonth currentYear : Nat) (selectedPlan : Option SubscriptionPlan)
      (p : PaymentDraft),
      handlePayment currentMonth currentYear selectedPlan p = .showSecureCheckout →
      p.paymentMethod = .card) := by
  constructor
  · intro cm cy plan p hmethod hvalid
    rcases hmethod with h | h <;> simp [handlePayment, hvalid, h]
  · intro cm cy selectedPlan p h
    unfold handlePayment at h
    match selectedPlan, h with
    | some plan, h =>
        by_cases hv : (validateForm cm cy p).isEmpty = true
        · rw [hv] at h
          simp only [Bool.not_true, Bool.false_eq_true, if_false] at h
          match hm : p.paymentMethod, h with
          | .card, _ => rfl
        · rw [Bool.not_eq_true] at hv
          rw [hv] at h
          simp at h

/-- Witness for C2: a valid PayPal draft completes immediately. -/
theorem noncard_bypasses_authentication_witness :
    handlePayment 10 26 (some ⟨"free-trial", true⟩)
      { email := "user@example.com", paymentMethod := .paypal, cardNumber := "",
        expirationMonth := "", expirationYear := "", cvc := "", country := "" } =
      .paymentComplete :=
  noncard_bypasses_authentication.1 10 26 ⟨"free-trial", true⟩ _ (Or.inl rfl) (by decide)

/-! ### C3: countdown expiry exits through the cancel path -/

lemma runAuthTicks_before (k : Nat) (h : k ≤ 299) :
    runAuthTicks k = ⟨300 - (k : Int), true, none⟩ := by
  induction k with
  | zero => rfl
  | succ n ih =>
      have hn : n ≤ 299 := by omega
      have hi := ih hn
      have hstep : runAuthTicks (n + 1) = authTick (runAuthTicks n) := by
        unfold runAuthTicks
        rw [Function.iterate_succ_apply']
      rw [hstep, hi]
      unfold authTick
      simp only [if_true]
      have hlt : ¬ (300 - (n : Int) - 1 ≤ 0) := by
        have : (n : Int) ≤ 298 := by exact_mod_cast (show n ≤ 298 by omega)
        omega
      rw [if_neg hlt]
      have : (300 : Int) - (n : Int) - 1 = 300 - ((n : Nat) + 1 : Nat) := by
        push_cast
        ring
      simp [this]

/-- C3: the 300-second countdown fires no exit and keeps its interval
for the first 299 ticks; on the 300th tick it clears the interval and
invokes `onCancel` (never `onError`), and the paywall's cancel handler
navigates to the cancel destination carrying no error message. -/
theorem auth_timeout_cancels :
    (∀ k, k < 300 →
      (runAuthTicks k).exitEvent = none ∧ (runAuthTicks k).intervalActive = true) ∧
    (runAuthTicks 300).intervalActive = false ∧
    (runAuthTicks 300).exitEvent = some .cancel ∧
    (∀ msg, (runAuthTicks 300).exitEvent ≠ some (.error msg)) ∧
    (∀ language, routeSecureCheckoutExit language .cancel =
      ⟨langPrefixedPath "/payment/cancel" language, none⟩) := by
  have h300 : runAuthTicks 300 = ⟨0, false, some .cancel⟩ := by
    have h299 : runAuthTicks 299 = ⟨1, true, none⟩ := by
      rw [runAuthTicks_before 299 (by omega)]
      rfl
    have hstep : runAuthTicks 300 = authTick (runAuthTicks 299) := by
      unfold runAuthTicks
      rw [Function.iterate_succ_apply']
    rw [hstep, h299]
    rfl
  refine ⟨?_, ?_, ?_, ?_, ?_⟩
  · intro k hk
    rw [runAuthTicks_before k (by omega)]
    exact ⟨rfl, rfl⟩
  · rw [h300]
  · rw [h300]
  · intro msg
    rw [h300]
    simp
  · intro language
    rfl

/-- Witness for C3: before the first tick no exit has fired, and after
300 ticks the cancel exit routes to the Arabic cancel page with no
message. -/
theorem auth_timeout_cancels_witness :
    (runAuthTicks 0).exitEvent = none ∧
    routeSecureCheckoutExit .ar .cancel = ⟨"/ar/payment/cancel", none⟩ :=
  ⟨(auth_timeout_cancels.1 0 (by decide)).1, by
    rw [auth_timeout_cancels.2.2.2.2 .ar]
    decide⟩

/-! ### C8: payment-method change clears card sub-fields only -/

/-- C8: changing the payment method (to any target) empties
`cardNumber`, `expirationMonth`, `expirationYear` and `cvc`, deletes
the card-related error entries, sets the new method, and leaves every
other draft field — in particular `email` and `country` — and every
other error entry unchanged. -/
theorem payment_method_change_frame (s : FormState) (method : PaymentMethod) :
    (handlePaymentMethodChange s method).paymentInfo.cardNumber = "" ∧
    (handlePaymentMethodChange s method).paymentInfo.expirationMonth = "" ∧
    (handlePaymentMethodChange s method).paymentInfo.expirationYear = "" ∧
    (handlePaymentMethodChange s method).paymentInfo.cvc = "" ∧
    (handlePaymentMethodChange s method).errors.cardNumber = none ∧
    (handlePaymentMethodChange s method).errors.expiration = none ∧
    (handlePaymentMethodChange s method).errors.cvc = none ∧
    (handlePaymentMethodChange s method).paymentInfo.paymentMethod = method ∧
    (handlePaymentMethodChange s method).paymentInfo.email = s.paymentInfo.email ∧
    (handlePaymentMethodChange s method).paymentInfo.country = s.paymentInfo.country ∧
    (handlePaymentMethodChange s method).errors.email = s.errors.email ∧
    (handlePaymentMethodChange s method).errors.country = s.errors.country ∧
    (handlePaymentMethodChange s method).errors.general = s.errors.general :=
  ⟨rfl, rfl, rfl, rfl, rfl, rfl, rfl, rfl, rfl, rfl, rfl, rfl, rfl⟩

/-! ### C9: direction is determined by language in every reachable
state -/

lemma direction_invariant_initial (urlPathname : String) (storedState : Option AppState) :
    (initialAppState urlPathname storedState).direction =
      dirOfLang (initialAppState urlPathname storedState).language := by
  unfold initialAppState dirOfLang
  cases storedState <;> rfl

lemma direction_invariant_step (s : AppState) (op : AppOp)
    (h : s.direction = dirOfLang s.language) :
    (applyAppOp s op).direction = dirOfLang (applyAppOp s op).language := by
  cases op <;> simp [applyAppOp, appReducer, INITIAL_STATE, dirOfLang, h]

lemma direction_invariant_fold (ops : List AppOp) :
    ∀ s : AppState, s.direction = dirOfLang s.language →
      (ops.foldl applyAppOp s).direction = dirOfLang (ops.foldl applyAppOp s).language := by
  induction ops with
  | nil => intro s h; exact h
  | cons op rest ih =>
      intro s h
      exact ih (applyAppOp s op) (direction_invariant_step s op h)

/-- C9: in every reachable application state — after initialization
from the URL and any stored snapshot, and after any sequence of hook
operations (language switches, payment/onboarding updates, reset) —
`direction` is `rtl` exactly when `language` is `ar`, and `ltr`
otherwise. -/
theorem direction_determined_by_language (s : AppState) (h : ReachableAppState s) :
    (s.direction = .rtl ↔ s.language = .ar) ∧
    (s.language ≠ .ar → s.direction = .ltr) := by
  obtain ⟨urlPathname, storedState, ops, rfl⟩ := h
  have hinv := direction_invariant_fold ops (initialAppState urlPathname storedState)
    (direction_invariant_initial urlPathname storedState)
  set t := ops.foldl applyAppOp (initialAppState urlPathname storedState) with ht
  cases hl : t.language with
  | ar =>
      rw [hl] at hinv
      have hdir : t.direction = Dir.rtl := by
        rw [hinv]
        rfl
      exact ⟨by rw [hdir]; simp, fun hne => absurd rfl hne⟩
  | en =>
      rw [hl] at hinv
      have hdir : t.direction = Dir.ltr := by
        rw [hinv]
        rfl
      exact ⟨by rw [hdir]; simp, fun _ => hdir⟩

/-- Witness for C9: the state initialized from the `/ar` URL is
reachable and right-to-left. -/
theorem direction_determined_by_language_witness :
    (initialAppState "/ar/paywall" none).direction = .rtl ↔
      (initialAppState "/ar/paywall" none).language = .ar :=
  (direction_determined_by_language (initialAppState "/ar/paywall" none)
    ⟨"/ar/paywall", none, [], rfl⟩).1

/-! ### C4: the persisted snapshot is never written by payment-field
changes -/

/-- C4 evaluation: contrary to the claimed write policy, the storage
effect of `updatePaymentInfo` never touches the `app_state` snapshot
(it persists only the dedicated `user_email` key), so after an email
change to `x@example.com` followed by a simulated reload in which the
dedicated key is absent and only the snapshot is read, the recovered
email is `none`, not `x@example.com`. -/
theorem snapshot_never_written :
    (∀ (st : BrowserStorage) (payload : PaymentPatch),
      (updatePaymentInfoStorage st payload).appStateKey = st.appStateKey) ∧
    (∀ (st : BrowserStorage) (value : String),
      (handleEmailChangeStorage st value).appStateKey = st.appStateKey) ∧
    (recoverEmail none
        ⟨none, (updatePaymentInfoStorage ⟨none, none⟩ { email := some "x@example.com" }).appStateKey⟩ =
      none) := by
  refine ⟨?_, ?_, by decide⟩
  · intro st payload
    unfold updatePaymentInfoStorage
    cases payload.email with
    | none => rfl
    | some e =>
        by_cases he : e ≠ ""
        · simp [he]
        · simp at he
          simp [he]
  · intro st value
    unfold handleEmailChangeStorage updatePaymentInfoStorage
    cases hv : (some value : Option String) with
    | none => simp at hv
    | some e =>
        simp at hv
        subst hv
        by_cases he : value ≠ ""
        · simp [he]
        · simp at he
          simp [he]

/-! ### C10: the dedicated email key is overwritten on clearing -/

/-- Counterexample to C10: starting from a store holding
`user_email = "a@b.c"`, clearing the email field through the paywall's
change handler does NOT leave the stored email in place — the handler
writes the key unconditionally, overwriting it with the empty string. -/
theorem user_email_clear_counterexample :
    (handleEmailChangeStorage ⟨some "a@b.c", none⟩ "").userEmailKey ≠ some "a@b.c" ∧
    (handleEmailChangeStorage ⟨some "a@b.c", none⟩ "").userEmailKey = some "" := by
  decide

/-- C10 (amended): `updatePaymentInfo` itself guards the dedicated
email-key write with a truthiness check (non-empty writes land, empty
ones are skipped), but the paywall email-change handler then writes the
key unconditionally; clearing the email field to the empty string
therefore overwrites the stored email with `""`, and the success-page
recovery chain — which treats the empty value as absent — returns no
email (with no snapshot present) rather than the erased one. -/
theorem user_email_write_policy :
    (∀ (st : BrowserStorage) (value : String), value ≠ "" →
      (updatePaymentInfoStorage st { email := some value }).userEmailKey = some value) ∧
    (∀ st : BrowserStorage,
      (updatePaymentInfoStorage st { email := some "" }).userEmailKey = st.userEmailKey) ∧
    (∀ (st : BrowserStorage) (value : String),
      (handleEmailChangeStorage st value).userEmailKey = some value) ∧
    (∀ st : BrowserStorage, st.appStateKey = none →
      recoverEmail none (handleEmailChangeStorage st "") = none) := by
  refine ⟨?_, ?_, ?_, ?_⟩
  · intro st value hv
    simp [updatePaymentInfoStorage, hv]
  · intro st
    simp [updatePaymentInfoStorage]
  · intro st value
    simp [handleEmailChangeStorage]
  · intro st hst
    simp [recoverEmail, handleEmailChangeStorage, updatePaymentInfoStorage, truthyStr, hst]

/-- Witness for C10's amended statement: a non-empty update lands in
the dedicated key, and clearing through the paywall recovers nothing. -/
theorem user_email_write_policy_witness :
    (updatePaymentInfoStorage ⟨none, none⟩ { email := some "a@b.c" }).userEmailKey =
      some "a@b.c" ∧
    recoverEmail none (handleEmailChangeStorage ⟨some "a@b.c", none⟩ "") = none :=
  ⟨user_email_write_policy.1 ⟨none, none⟩ "a@b.c" (by decide),
    user_email_write_policy.2.2.2 ⟨some "a@b.c", none⟩ rfl⟩

end HealthApp
